import Mathlib

/-!
Verification of the acoustic field computation engine of the sonic-draft
repository. The definitions below are a shallow embedding of the relevant
source code: the acoustic composable in `src/stores/speaker.ts` (SPL decay,
off-axis attenuation, point evaluation, ceiling-reflection check) and the
incremental heatmap sampler in `src/components/canvas/TopDownCoverage.vue`.
JavaScript numbers are modelled as real numbers; element counts as naturals.
-/

namespace SonicDraft

/-- Embeds `Point2D` from `src/stores/speaker.ts` — positions in meters. -/
structure Point2D where
  x : ℝ
  y : ℝ

/-- Embeds `Point3D` from `src/stores/speaker.ts`. -/
structure Point3D where
  x : ℝ
  y : ℝ
  z : ℝ

/-- Embeds the `SpeakerType` enumeration of the speaker catalog
(`src/data/speakers/types.ts`). -/
inductive SpeakerType where
  | LineArray
  | PointSource
  | Column
  | Subwoofer
deriving DecidableEq

/-- The fields of the catalog `specs` record that the acoustic engine reads
(`maxSPL`, dispersion angles, `couplingCoefficient`). -/
structure SpeakerSpecs where
  maxSPL : ℝ
  horzDispersion : ℝ
  vertDispersion : ℝ
  couplingCoefficient : ℝ

/-- The fields of a catalog `SpeakerModel` that the acoustic engine reads:
its `type`, the `arrayable` flag, and the `specs` record. -/
structure SpeakerModel where
  type : SpeakerType
  arrayable : Bool
  specs : SpeakerSpecs

/-- The fields of a `SpeakerDeployment` that `calculateSPLAtPoint` and
`analyzeCoverage` read. The element count `quantity` is a natural number. -/
structure SpeakerDeployment where
  quantity : ℕ
  trimHeight : ℝ
  tiltAngle : ℝ
  horizontalAim : ℝ

/-- Embeds the `SPLResult` record returned by `calculateSPLAtPoint`. -/
structure SPLResult where
  spl : ℝ
  distance : ℝ
  horzAngle : ℝ
  vertAngle : ℝ
  attenuation : ℝ
  inCoverage : Prop

/-- Embeds `calculateInverseSquare` (speaker.ts lines 916-923): point-source
spherical spreading with the degenerate-distance fallback. -/
noncomputable def calculateInverseSquare (distance maxSPL : ℝ) : ℝ :=
  if distance ≤ 0 then maxSPL
  else maxSPL - 20 * Real.logb 10 distance

/-- Embeds `calculateCylindricalLoss` (speaker.ts lines 947-974): line-array
cylindrical spreading below the transition distance, spherical beyond it,
with the coupling-efficiency term on the effective SPL. -/
noncomputable def calculateCylindricalLoss
    (distance maxSPL lineLength couplingCoefficient : ℝ) : ℝ :=
  if distance ≤ 0 then maxSPL
  else if lineLength ≤ 0 then calculateInverseSquare distance maxSPL
  else
    let wavelength : ℝ := 0.343
    let transitionDistance := lineLength * lineLength / wavelength
    let effectiveMaxSPL := maxSPL + 20 * Real.logb 10 couplingCoefficient
    if distance ≤ transitionDistance then
      effectiveMaxSPL - 10 * Real.logb 10 distance
    else
      let splAtTransition := effectiveMaxSPL - 10 * Real.logb 10 transitionDistance
      let farFieldDistance := distance / transitionDistance
      splAtTransition - 20 * Real.logb 10 farFieldDistance

/-- Embeds `getOffAxisAttenuation` (speaker.ts lines 995-1016): quadratic
roll-off within half coverage, linear roll-off clamped at -40 dB beyond. -/
noncomputable def getOffAxisAttenuation (angle coverageAngle : ℝ) : ℝ :=
  if coverageAngle ≤ 0 then 0
  else
    let absAngle := |angle|
    let halfCoverage := coverageAngle / 2
    if absAngle ≤ halfCoverage then
      let ratio := absAngle / halfCoverage
      (-6) * ratio * ratio
    else
      let beyondCoverage := absAngle - halfCoverage
      let baseAttenuation : ℝ := -6
      let additionalAttenuation := -2 * beyondCoverage
      max (baseAttenuation + additionalAttenuation) (-40)

/-- Embeds `getCombinedAttenuation` (speaker.ts lines 1027-1039). -/
noncomputable def getCombinedAttenuation
    (horzAngle vertAngle horzDispersion vertDispersion : ℝ) : ℝ :=
  let horzAtten := getOffAxisAttenuation horzAngle horzDispersion
  let vertAtten := getOffAxisAttenuation vertAngle vertDispersion
  min horzAtten vertAtten + max horzAtten vertAtten * 0.5

/-- Embeds `distance3D` (speaker.ts lines 1055-1061). -/
noncomputable def distance3D (p1 p2 : Point3D) : ℝ :=
  Real.sqrt ((p2.x - p1.x) ^ 2 + (p2.y - p1.y) ^ 2 + (p2.z - p1.z) ^ 2)

/-- The two-argument arctangent as computed by `Math.atan2(y, x)` in
JavaScript, restricted to real (non-NaN) inputs. -/
noncomputable def atan2 (y x : ℝ) : ℝ :=
  if 0 < x then Real.arctan (y / x)
  else if x < 0 then
    if 0 ≤ y then Real.arctan (y / x) + Real.pi
    else Real.arctan (y / x) - Real.pi
  else
    if 0 < y then Real.pi / 2
    else if y < 0 then -(Real.pi / 2)
    else 0

/-- Embeds `calculateHorizontalAngle` (speaker.ts lines 1071-1080). -/
noncomputable def calculateHorizontalAngle
    (source target : Point2D) (aimAngle : ℝ) : ℝ :=
  let dx := target.x - source.x
  let dy := target.y - source.y
  let angleToTarget := atan2 dx dy * 180 / Real.pi
  |angleToTarget - aimAngle|

/-- Embeds `calculateVerticalAngle` (speaker.ts lines 1091-1100). -/
noncomputable def calculateVerticalAngle
    (sourceHeight targetHeight horizontalDistance tiltAngle : ℝ) : ℝ :=
  let heightDiff := sourceHeight - targetHeight
  let angleToTarget := atan2 heightDiff horizontalDistance * 180 / Real.pi
  |angleToTarget - tiltAngle|

/-- Embeds `calculateSPLAtPoint` (speaker.ts lines 1120-1192): distance and
angle computation, regime selection between the line-array model and the
point-source model, and the combined off-axis attenuation. -/
noncomputable def calculateSPLAtPoint
    (point speakerPosition : Point3D)
    (speaker : SpeakerModel) (deployment : SpeakerDeployment) : SPLResult :=
  let dist := distance3D point speakerPosition
  let horzAngle := calculateHorizontalAngle
    ⟨speakerPosition.x, speakerPosition.z⟩ ⟨point.x, point.z⟩
    deployment.horizontalAim
  let vertAngle := calculateVerticalAngle
    speakerPosition.y point.y
    (Real.sqrt ((point.x - speakerPosition.x) ^ 2 + (point.z - speakerPosition.z) ^ 2))
    deployment.tiltAngle
  let baseSPL :=
    if speaker.type = SpeakerType.LineArray ∧ deployment.quantity > 1 ∧
        speaker.arrayable = true then
      let arrayLength := (deployment.quantity : ℝ) * 0.3
      let coupling := speaker.specs.couplingCoefficient
      let arrayGain := 10 * Real.logb 10 (deployment.quantity : ℝ) * coupling
      calculateCylindricalLoss dist (speaker.specs.maxSPL + arrayGain) arrayLength coupling
    else
      calculateInverseSquare dist speaker.specs.maxSPL
  let attenuation := getCombinedAttenuation horzAngle vertAngle
    speaker.specs.horzDispersion speaker.specs.vertDispersion
  let inCoverage :=
    horzAngle ≤ speaker.specs.horzDispersion / 2 ∧
    vertAngle ≤ speaker.specs.vertDispersion / 2
  { spl := baseSPL + attenuation
    distance := dist
    horzAngle := horzAngle
    vertAngle := vertAngle
    attenuation := attenuation
    inCoverage := inCoverage }

/-- Embeds `checkCeilingIntersection` (speaker.ts lines 1210-1231): the
uptilted edge of the vertical coverage cone is intersected with the
ceiling plane; a reflection is flagged when the intersection distance lies
strictly inside the room depth. -/
def checkCeilingIntersection
    (speakerHeight tiltAngle vertDispersion ceilingHeight depth : ℝ) : Prop :=
  let topAngle := tiltAngle - vertDispersion / 2
  if topAngle < 0 then
    let risePerMeter := Real.tan (|topAngle| * Real.pi / 180)
    let intersectionDistance := (ceilingHeight - speakerHeight) / risePerMeter
    intersectionDistance < depth ∧ intersectionDistance > 0
  else False

/-- The `hasCeilingReflection` flag computed by `analyzeCoverage`
(speaker.ts lines 1276-1282): `checkCeilingIntersection` applied to the
trim height, tilt angle, vertical dispersion, room height and room depth. -/
def hasCeilingReflection
    (roomHeight roomDepth : ℝ)
    (speaker : SpeakerModel) (deployment : SpeakerDeployment) : Prop :=
  checkCeilingIntersection deployment.trimHeight deployment.tiltAngle
    speaker.specs.vertDispersion roomHeight roomDepth

/-- Modelled from the spec: the function `calculateMultiSourceSPL` is
called by the heatmap sampler in `TopDownCoverage.vue` but its definition is
not among the available sources (only its call sites are). Per spec section
4.3, each active source contributes its point evaluation together with a
gain adjustment in dB (zero for the main sources, the configured gain for
the center fill); each SPL is converted to linear intensity
`10 ^ ((spl + gain) / 10)`, the intensities are summed, and the sum is
converted back to dB via `10 * log10`. -/
noncomputable def calculateMultiSourceSPL
    (contributions : List (SPLResult × ℝ)) : ℝ :=
  10 * Real.logb 10
    ((contributions.map (fun c => (10 : ℝ) ^ ((c.1.spl + c.2) / 10))).sum)

/-- Outcome of one scheduled slice of the heatmap sampler in
`TopDownCoverage.vue` (`startHeatmap`, lines 744-817): the slice either
detects a superseded generation token and aborts, yields with the saved
grid cursor after exhausting the frame budget, or completes the grid. -/
inductive SliceOutcome where
  | aborted
  | yielded (i j : ℕ)
  | completed
deriving DecidableEq

/-- State of one heatmap sampling job: the generation token captured at job
creation (`currentGen`) and the grid cursor (`px`, `py` in cell units). -/
structure HeatmapJob where
  gen : ℕ
  i : ℕ
  j : ℕ
deriving DecidableEq

/-- Inner loop of a heatmap slice over one grid column (the `while py < maxY`
loop of `step` in `startHeatmap`): each iteration paints the cell at the
cursor, advances the cursor, and then checks the frame budget (modelled as a
count of cells that may still be painted in this slice); when the budget is
exhausted the slice yields with the already advanced cursor. Returns the
painted cells together with either the yield cursor or the leftover budget
when the column is finished. -/
def paintColumn (ny i j budget : ℕ) : List (ℕ × ℕ) × (Sum (ℕ × ℕ) ℕ) :=
  if h : j < ny then
    if budget ≤ 1 then ([(i, j)], Sum.inl (i, j + 1))
    else
      let r := paintColumn ny i (j + 1) (budget - 1)
      ((i, j) :: r.1, r.2)
  else ([], Sum.inr budget)
termination_by ny - j
decreasing_by omega

/-- Outer loop of a heatmap slice (the `while px < maxX` loop of `step`):
processes columns starting from the cursor until the budget runs out
(yield) or the grid is exhausted (completed). -/
def paintLoop (nx ny i j budget : ℕ) : List (ℕ × ℕ) × SliceOutcome :=
  if h : i < nx then
    match paintColumn ny i j budget with
    | (cells, Sum.inl cur) => (cells, SliceOutcome.yielded cur.1 cur.2)
    | (cells, Sum.inr remaining) =>
      let r := paintLoop nx ny (i + 1) 0 remaining
      (cells ++ r.1, r.2)
  else ([], SliceOutcome.completed)
termination_by nx - i
decreasing_by omega

/-- One scheduled slice of a heatmap job (the body of `step` in
`startHeatmap`): the very first action compares the captured generation
token of the job against the current value of the global generation counter
(`if (currentGen !== heatmapGeneration)`); on mismatch the slice aborts
without painting any cell, otherwise the grid loops run under the frame
budget from the saved cursor. -/
def heatmapStep (globalGen : ℕ) (job : HeatmapJob) (nx ny budget : ℕ) :
    List (ℕ × ℕ) × SliceOutcome :=
  if job.gen ≠ globalGen then ([], SliceOutcome.aborted)
  else paintLoop nx ny job.i job.j budget

/-- Runs a heatmap job across successive scheduled slices. `gens` is the
sequence of values of the global generation counter observed at the start
of each slice (one entry per `requestAnimationFrame` callback). Returns all
painted cells together with a completion flag; an aborted or never
rescheduled job reports `false`. -/
def runHeatmapJob (gens : List ℕ) (job : HeatmapJob) (nx ny budget : ℕ) :
    List (ℕ × ℕ) × Bool :=
  match gens with
  | [] => ([], false)
  | g :: rest =>
    match heatmapStep g job nx ny budget with
    | (cells, SliceOutcome.aborted) => (cells, false)
    | (cells, SliceOutcome.completed) => (cells, true)
    | (cells, SliceOutcome.yielded i j) =>
      let r := runHeatmapJob rest ⟨job.gen, i, j⟩ nx ny budget
      (cells ++ r.1, r.2)

/-- Concrete point used in witnesses and counterexamples: the origin. -/
noncomputable def origin : Point3D := ⟨0, 0, 0⟩

/-- Concrete point at depth 1 m from the origin (distance exactly 1). -/
noncomputable def ptZ1 : Point3D := ⟨0, 0, 1⟩

/-- Concrete line-array speaker used in witnesses and counterexamples:
arrayable, coupling coefficient 1/10 so that the coupling terms have
exactly computable logarithms. -/
noncomputable def laSpk : SpeakerModel :=
  ⟨SpeakerType.LineArray, true, ⟨130, 90, 60, 1 / 10⟩⟩

/-- Concrete arrayable subwoofer, as present in the speaker catalog
(for example the arrayable `SpeakerType.Subwoofer` entries of
`src/data/speakers/database.ts`), with coupling coefficient 1. -/
noncomputable def subSpk : SpeakerModel :=
  ⟨SpeakerType.Subwoofer, true, ⟨130, 90, 60, 1⟩⟩

/-- Concrete deployment with a single element. -/
noncomputable def dep1 : SpeakerDeployment := ⟨1, 6, 0, 0⟩

/-- Concrete deployment with two elements. -/
noncomputable def dep2 : SpeakerDeployment := ⟨2, 6, 0, 0⟩

/-- Concrete deployment with ten elements. -/
noncomputable def dep10 : SpeakerDeployment := ⟨10, 6, 0, 0⟩

/-- Concrete speaker for the ceiling-reflection scenario: vertical
dispersion 20 degrees. -/
noncomputable def ceilSpk : SpeakerModel :=
  ⟨SpeakerType.LineArray, true, ⟨130, 90, 20, 0.9⟩⟩

/-- Concrete deployment for the ceiling-reflection scenario: trim height
6 m, tilt 10 degrees down. -/
noncomputable def ceilDep : SpeakerDeployment := ⟨1, 6, 10, 0⟩

/-- The `spl` field produced by `calculateSPLAtPoint` is the regime base
SPL (line-array model when the speaker is a line array, is arrayable and
has more than one deployed element; point-source model otherwise) plus the
combined off-axis attenuation returned in the `attenuation` field. Holds by
unfolding the definition. -/
lemma spl_eq_base_add_attenuation
    (point speakerPosition : Point3D)
    (speaker : SpeakerModel) (deployment : SpeakerDeployment) :
    (calculateSPLAtPoint point speakerPosition speaker deployment).spl =
      (if speaker.type = SpeakerType.LineArray ∧ deployment.quantity > 1 ∧
          speaker.arrayable = true then
        calculateCylindricalLoss (distance3D point speakerPosition)
          (speaker.specs.maxSPL +
            10 * Real.logb 10 (deployment.quantity : ℝ) * speaker.specs.couplingCoefficient)
          ((deployment.quantity : ℝ) * 0.3) speaker.specs.couplingCoefficient
      else
        calculateInverseSquare (distance3D point speakerPosition) speaker.specs.maxSPL)
      + (calculateSPLAtPoint point speakerPosition speaker deployment).attenuation := rfl

/-- The distance between the two concrete points `ptZ1` and `origin` is
exactly 1 meter. -/
lemma distance3D_ptZ1_origin : distance3D ptZ1 origin = 1 := by
  have h : ((origin.x - ptZ1.x) ^ 2 + (origin.y - ptZ1.y) ^ 2 +
      (origin.z - ptZ1.z) ^ 2 : ℝ) = 1 := by
    norm_num [ptZ1, origin]
  simp only [distance3D]
  rw [h, Real.sqrt_one]

/-- Claim C1: if the captured generation token of a heatmap sampling job
differs from the current global generation counter at the start of a
scheduled slice, the slice aborts immediately and the job computes no
further grid cells and emits no further results, through all remaining
scheduled slices; the comparison is made at the start of every slice (the
cursor state of the job is arbitrary here, not only the initial one). -/
theorem heatmap_superseded_job_emits_nothing
    (globalGen : ℕ) (rest : List ℕ) (job : HeatmapJob) (nx ny budget : ℕ)
    (h : job.gen ≠ globalGen) :
    heatmapStep globalGen job nx ny budget = ([], SliceOutcome.aborted) ∧
    runHeatmapJob (globalGen :: rest) job nx ny budget = ([], false) := by
  have hs : heatmapStep globalGen job nx ny budget = ([], SliceOutcome.aborted) := by
    simp [heatmapStep, h]
  refine ⟨hs, ?_⟩
  simp [runHeatmapJob, hs]

/-- Witness for claim C1: a job with token 3 resumed mid-grid while the
global counter reads 5 paints nothing and never completes. -/
theorem heatmap_superseded_job_emits_nothing_witness :
    (⟨3, 1, 2⟩ : HeatmapJob).gen ≠ 5 ∧
    heatmapStep 5 ⟨3, 1, 2⟩ 4 4 10 = ([], SliceOutcome.aborted) ∧
    runHeatmapJob [5] ⟨3, 1, 2⟩ 4 4 10 = ([], false) := by
  have h : (⟨3, 1, 2⟩ : HeatmapJob).gen ≠ 5 := by decide
  obtain ⟨h1, h2⟩ := heatmap_superseded_job_emits_nothing 5 [] ⟨3, 1, 2⟩ 4 4 10 h
  exact ⟨h, h1, h2⟩

/-- Claim C3: the piecewise line-array SPL function is continuous at the
transition distance `Lt = lineLength ^ 2 / 0.343`: the value of
`calculateCylindricalLoss` at distance `Lt` (computed by the near-field
branch) coincides exactly with the far-field branch expression
`splAtTransition - 20 * log10 (Lt / Lt)` evaluated at that distance. -/
theorem cylindricalLoss_continuous_at_transition
    (maxSPL lineLength couplingCoefficient : ℝ) (hL : 0 < lineLength) :
    calculateCylindricalLoss (lineLength * lineLength / 0.343) maxSPL
        lineLength couplingCoefficient =
      ((maxSPL + 20 * Real.logb 10 couplingCoefficient)
          - 10 * Real.logb 10 (lineLength * lineLength / 0.343))
        - 20 * Real.logb 10
            ((lineLength * lineLength / 0.343) / (lineLength * lineLength / 0.343)) := by
  have hLt : 0 < lineLength * lineLength / 0.343 := by positivity
  simp only [calculateCylindricalLoss]
  rw [if_neg (not_le.mpr hLt), if_neg (not_le.mpr hL), if_pos le_rfl,
    div_self (ne_of_gt hLt), Real.logb_one]
  ring

/-- Witness for claim C3 at line length 2 m. -/
theorem cylindricalLoss_continuous_at_transition_witness :
    (0 : ℝ) < 2 ∧
    calculateCylindricalLoss (2 * 2 / 0.343) 130 2 0.9 =
      ((130 + 20 * Real.logb 10 0.9) - 10 * Real.logb 10 (2 * 2 / 0.343))
        - 20 * Real.logb 10 ((2 * 2 / 0.343) / (2 * 2 / 0.343)) :=
  ⟨by norm_num,
    cylindricalLoss_continuous_at_transition 130 2 0.9 (by norm_num)⟩

/-- Claim C4: for a positive full coverage angle, the off-axis attenuation
is the quadratic roll-off `-6 * (|angle| / halfCoverage) ^ 2` within half
coverage, the linear continuation `-6 - 2 * (|angle| - halfCoverage)`
clamped at -40 dB beyond it; both branch expressions equal exactly -6 dB at
the half-coverage edge, and the attenuation on axis is 0. -/
theorem offAxisAttenuation_piecewise :
    (∀ angle coverageAngle : ℝ, 0 < coverageAngle → |angle| ≤ coverageAngle / 2 →
      getOffAxisAttenuation angle coverageAngle =
        -6 * (|angle| / (coverageAngle / 2)) ^ 2) ∧
    (∀ angle coverageAngle : ℝ, 0 < coverageAngle → coverageAngle / 2 < |angle| →
      getOffAxisAttenuation angle coverageAngle =
        max (-6 - 2 * (|angle| - coverageAngle / 2)) (-40)) ∧
    (∀ coverageAngle : ℝ, 0 < coverageAngle →
      getOffAxisAttenuation (coverageAngle / 2) coverageAngle = -6 ∧
      max (-6 - 2 * (coverageAngle / 2 - coverageAngle / 2)) (-40 : ℝ) = -6) ∧
    (∀ coverageAngle : ℝ, 0 < coverageAngle →
      getOffAxisAttenuation 0 coverageAngle = 0) := by
  refine ⟨?_, ?_, ?_, ?_⟩
  · intro angle coverageAngle hcov hle
    simp only [getOffAxisAttenuation]
    rw [if_neg (not_le.mpr hcov), if_pos hle]
    ring
  · intro angle coverageAngle hcov hgt
    simp only [getOffAxisAttenuation]
    rw [if_neg (not_le.mpr hcov), if_neg (not_le.mpr hgt)]
    congr 1
    ring
  · intro coverageAngle hcov
    have hhalf : 0 < coverageAngle / 2 := by linarith
    constructor
    · simp only [getOffAxisAttenuation]
      rw [if_neg (not_le.mpr hcov), abs_of_nonneg (le_of_lt hhalf), if_pos le_rfl,
        div_self (ne_of_gt hhalf)]
      ring
    · rw [sub_self, mul_zero, sub_zero]
      exact max_eq_left (by norm_num)
  · intro coverageAngle hcov
    have hhalf : 0 < coverageAngle / 2 := by linarith
    simp only [getOffAxisAttenuation]
    rw [if_neg (not_le.mpr hcov), abs_zero, if_pos (le_of_lt hhalf), zero_div]
    ring

/-- Witness for claim C4 at a 90-degree coverage angle: inside roll-off at
30 degrees, outside roll-off at 60 degrees, edge value and on-axis value. -/
theorem offAxisAttenuation_piecewise_witness :
    (0 : ℝ) < 90 ∧
    getOffAxisAttenuation 30 90 = -6 * (|(30 : ℝ)| / (90 / 2)) ^ 2 ∧
    getOffAxisAttenuation 60 90 = max (-6 - 2 * (|(60 : ℝ)| - 90 / 2)) (-40) ∧
    getOffAxisAttenuation (90 / 2) 90 = -6 ∧
    getOffAxisAttenuation 0 90 = 0 := by
  have h30 : |(30 : ℝ)| = 30 := abs_of_nonneg (by norm_num)
  have h60 : |(60 : ℝ)| = 60 := abs_of_nonneg (by norm_num)
  refine ⟨by norm_num,
    offAxisAttenuation_piecewise.1 30 90 (by norm_num) (by rw [h30]; norm_num),
    offAxisAttenuation_piecewise.2.1 60 90 (by norm_num) (by rw [h60]; norm_num),
    (offAxisAttenuation_piecewise.2.2.1 90 (by norm_num)).1,
    offAxisAttenuation_piecewise.2.2.2 90 (by norm_num)⟩

/-- Claim C5: the combined attenuation is the asymmetric combination
`min + 0.5 * max` of the two per-axis off-axis attenuations. -/
theorem combinedAttenuation_is_min_plus_half_max
    (horzAngle vertAngle horzDispersion vertDispersion : ℝ) :
    getCombinedAttenuation horzAngle vertAngle horzDispersion vertDispersion =
      min (getOffAxisAttenuation horzAngle horzDispersion)
          (getOffAxisAttenuation vertAngle vertDispersion)
      + 0.5 * max (getOffAxisAttenuation horzAngle horzDispersion)
          (getOffAxisAttenuation vertAngle vertDispersion) := by
  simp only [getCombinedAttenuation]
  ring

/-- Claim C9: the SPL functions return defined fallback values on
degenerate input: both distance-decay functions return the unattenuated
reference SPL for every non-positive distance, and the off-axis attenuation
returns 0 dB for every non-positive full coverage angle. -/
theorem degenerate_inputs_return_fallbacks :
    (∀ distance maxSPL : ℝ, distance ≤ 0 →
      calculateInverseSquare distance maxSPL = maxSPL) ∧
    (∀ distance maxSPL lineLength couplingCoefficient : ℝ, distance ≤ 0 →
      calculateCylindricalLoss distance maxSPL lineLength couplingCoefficient = maxSPL) ∧
    (∀ angle coverageAngle : ℝ, coverageAngle ≤ 0 →
      getOffAxisAttenuation angle coverageAngle = 0) := by
  refine ⟨?_, ?_, ?_⟩
  · intro distance maxSPL h
    simp only [calculateInverseSquare]
    rw [if_pos h]
  · intro distance maxSPL lineLength couplingCoefficient h
    simp only [calculateCylindricalLoss]
    rw [if_pos h]
  · intro angle coverageAngle h
    simp only [getOffAxisAttenuation]
    rw [if_pos h]

/-- Witness for claim C9 at distance -1 m, distance 0 m and coverage 0. -/
theorem degenerate_inputs_return_fallbacks_witness :
    ((-1 : ℝ) ≤ 0 ∧ calculateInverseSquare (-1) 130 = 130) ∧
    ((0 : ℝ) ≤ 0 ∧ calculateCylindricalLoss 0 135 2.4 0.9 = 135) ∧
    ((0 : ℝ) ≤ 0 ∧ getOffAxisAttenuation 30 0 = 0) :=
  ⟨⟨by norm_num, degenerate_inputs_return_fallbacks.1 (-1) 130 (by norm_num)⟩,
    ⟨le_refl 0, degenerate_inputs_return_fallbacks.2.1 0 135 2.4 0.9 (le_refl 0)⟩,
    ⟨le_refl 0, degenerate_inputs_return_fallbacks.2.2 30 0 (le_refl 0)⟩⟩

/-- Each per-axis off-axis attenuation lies in the interval [-40, 0]. -/
lemma offAxisAttenuation_bounds (angle coverageAngle : ℝ) :
    -40 ≤ getOffAxisAttenuation angle coverageAngle ∧
    getOffAxisAttenuation angle coverageAngle ≤ 0 := by
  simp only [getOffAxisAttenuation]
  split_ifs with h1 h2
  · norm_num
  · have hcov : 0 < coverageAngle := lt_of_not_le h1
    have hhalf : 0 < coverageAngle / 2 := by linarith
    have hr0 : 0 ≤ |angle| / (coverageAngle / 2) :=
      div_nonneg (abs_nonneg _) (le_of_lt hhalf)
    have hr1 : |angle| / (coverageAngle / 2) ≤ 1 := (div_le_one hhalf).mpr h2
    constructor
    · nlinarith
    · nlinarith
  · constructor
    · exact le_max_right _ _
    · have hb : 0 < |angle| - coverageAngle / 2 := by
        have := lt_of_not_le h2
        linarith
      apply max_le
      · linarith
      · norm_num

/-- Claim C10: the combined attenuation always lies in [-60, 0] dB (each
per-axis attenuation lies in [-40, 0], so `min + 0.5 * max` is never
positive and never below -60); moreover the combined value can fall below
the -40 dB per-axis floor, as at 1000 degrees off axis on both planes. -/
theorem combinedAttenuation_bounds :
    (∀ horzAngle vertAngle horzDispersion vertDispersion : ℝ,
      (-40 ≤ getOffAxisAttenuation horzAngle horzDispersion ∧
        getOffAxisAttenuation horzAngle horzDispersion ≤ 0) ∧
      (-60 ≤ getCombinedAttenuation horzAngle vertAngle horzDispersion vertDispersion ∧
        getCombinedAttenuation horzAngle vertAngle horzDispersion vertDispersion ≤ 0)) ∧
    getCombinedAttenuation 1000 1000 10 10 < -40 := by
  constructor
  · intro horzAngle vertAngle horzDispersion vertDispersion
    obtain ⟨ha1, ha2⟩ := offAxisAttenuation_bounds horzAngle horzDispersion
    obtain ⟨hb1, hb2⟩ := offAxisAttenuation_bounds vertAngle vertDispersion
    refine ⟨⟨ha1, ha2⟩, ?_, ?_⟩
    · simp only [getCombinedAttenuation]
      have hmin : -40 ≤ min (getOffAxisAttenuation horzAngle horzDispersion)
          (getOffAxisAttenuation vertAngle vertDispersion) := le_min ha1 hb1
      have hmax : -40 ≤ max (getOffAxisAttenuation horzAngle horzDispersion)
          (getOffAxisAttenuation vertAngle vertDispersion) :=
        le_trans ha1 (le_max_left _ _)
      linarith
    · simp only [getCombinedAttenuation]
      have hmin : min (getOffAxisAttenuation horzAngle horzDispersion)
          (getOffAxisAttenuation vertAngle vertDispersion) ≤ 0 :=
        min_le_of_left_le ha2
      have hmax : max (getOffAxisAttenuation horzAngle horzDispersion)
          (getOffAxisAttenuation vertAngle vertDispersion) ≤ 0 := max_le ha2 hb2
      linarith
  · have hoff : getOffAxisAttenuation 1000 10 = -40 := by
      simp only [getOffAxisAttenuation]
      rw [if_neg (by norm_num : ¬ ((10 : ℝ) ≤ 0)),
        abs_of_nonneg (by norm_num : (0 : ℝ) ≤ 1000),
        if_neg (by norm_num : ¬ ((1000 : ℝ) ≤ 10 / 2))]
      rw [max_eq_right (by norm_num)]
    simp only [getCombinedAttenuation]
    rw [hoff, min_self, max_self]
    norm_num

/-- Claim C2 as stated is false on the code: in the line-array regime at a
distance inside the transition distance, the base SPL is not
`maxSPL + 10 * log10 (quantity) * coupling - 10 * log10 (distance)`;
`calculateCylindricalLoss` adds a further `20 * log10 (coupling)` to the
effective SPL, so the coupling coefficient does not enter only through the
array-gain term. Concrete counterexample at quantity 10, coupling 1/10 and
distance 1 (which satisfies `0 < d ≤ Lt`): the code yields 111 dB before
attenuation; the claimed formula yields 131 dB. -/
theorem coupling_only_in_array_gain_counterexample :
    laSpk.type = SpeakerType.LineArray ∧ laSpk.arrayable = true ∧
    dep10.quantity > 1 ∧
    0 < distance3D ptZ1 origin ∧
    distance3D ptZ1 origin ≤
      ((dep10.quantity : ℝ) * 0.3) * ((dep10.quantity : ℝ) * 0.3) / 0.343 ∧
    (calculateSPLAtPoint ptZ1 origin laSpk dep10).spl ≠
      (laSpk.specs.maxSPL
          + 10 * Real.logb 10 (dep10.quantity : ℝ) * laSpk.specs.couplingCoefficient)
        - 10 * Real.logb 10 (distance3D ptZ1 origin)
        + (calculateSPLAtPoint ptZ1 origin laSpk dep10).attenuation := by
  have hdist := distance3D_ptZ1_origin
  have hq : ((dep10.quantity : ℕ) : ℝ) = 10 := by norm_num [dep10]
  refine ⟨rfl, rfl, by norm_num [dep10], by rw [hdist]; norm_num,
    by rw [hdist, hq]; norm_num, ?_⟩
  rw [spl_eq_base_add_attenuation,
    if_pos ⟨rfl, (by norm_num [dep10] : dep10.quantity > 1), rfl⟩, hdist, hq]
  have hc : laSpk.specs.couplingCoefficient = 1 / 10 := rfl
  have hm : laSpk.specs.maxSPL = 130 := rfl
  rw [hc, hm]
  simp only [calculateCylindricalLoss]
  rw [if_neg (by norm_num : ¬ ((1 : ℝ) ≤ 0)),
    if_neg (by norm_num : ¬ ((10 : ℝ) * 0.3 ≤ 0)),
    if_pos (by norm_num : (1 : ℝ) ≤ (10 * 0.3) * (10 * 0.3) / 0.343),
    Real.logb_one, one_div, Real.logb_inv,
    Real.logb_self_eq_one (by norm_num : (1 : ℝ) < 10)]
  intro heq
  have h2 := add_right_cancel heq
  norm_num at h2

/-- Claim C2, amended: in the line-array regime, for every distance `d`
with `0 < d ≤ Lt`, the base SPL before off-axis attenuation equals
`effSPL - 10 * log10 d`, where
`effSPL = maxSPL + 10 * log10 (quantity) * coupling + 20 * log10 (coupling)`:
the coupling coefficient enters both through the array-gain term and
through the additional coupling-efficiency term of the cylindrical model. -/
theorem lineArray_nearfield_base_spl
    (point speakerPosition : Point3D) (speaker : SpeakerModel)
    (deployment : SpeakerDeployment)
    (ht : speaker.type = SpeakerType.LineArray)
    (hq : deployment.quantity > 1)
    (ha : speaker.arrayable = true)
    (hd : 0 < distance3D point speakerPosition)
    (hLt : distance3D point speakerPosition ≤
      ((deployment.quantity : ℝ) * 0.3) * ((deployment.quantity : ℝ) * 0.3) / 0.343) :
    (calculateSPLAtPoint point speakerPosition speaker deployment).spl =
      speaker.specs.maxSPL
        + 10 * Real.logb 10 (deployment.quantity : ℝ) * speaker.specs.couplingCoefficient
        + 20 * Real.logb 10 speaker.specs.couplingCoefficient
        - 10 * Real.logb 10 (distance3D point speakerPosition)
        + (calculateSPLAtPoint point speakerPosition speaker deployment).attenuation := by
  rw [spl_eq_base_add_attenuation, if_pos ⟨ht, hq, ha⟩]
  have hlen : ¬ ((deployment.quantity : ℝ) * 0.3 ≤ 0) := by
    have h1 : (1 : ℝ) < (deployment.quantity : ℝ) := by exact_mod_cast hq
    push_neg
    nlinarith
  simp only [calculateCylindricalLoss]
  rw [if_neg (not_le.mpr hd), if_neg hlen, if_pos hLt]

/-- Witness for the amended claim C2 at quantity 10, coupling 1/10 and
distance 1 m. -/
theorem lineArray_nearfield_base_spl_witness :
    0 < distance3D ptZ1 origin ∧
    (calculateSPLAtPoint ptZ1 origin laSpk dep10).spl =
      laSpk.specs.maxSPL
        + 10 * Real.logb 10 (dep10.quantity : ℝ) * laSpk.specs.couplingCoefficient
        + 20 * Real.logb 10 laSpk.specs.couplingCoefficient
        - 10 * Real.logb 10 (distance3D ptZ1 origin)
        + (calculateSPLAtPoint ptZ1 origin laSpk dep10).attenuation := by
  have hd : 0 < distance3D ptZ1 origin := by
    rw [distance3D_ptZ1_origin]; norm_num
  have hq : ((dep10.quantity : ℕ) : ℝ) = 10 := by norm_num [dep10]
  refine ⟨hd, lineArray_nearfield_base_spl ptZ1 origin laSpk dep10 rfl
    (by norm_num [dep10]) rfl hd ?_⟩
  rw [distance3D_ptZ1_origin, hq]
  norm_num

/-- Claim C6 as stated is false on the code: the code selects the
line-array regime only when additionally `speaker.type === LineArray`, and
the catalog contains arrayable subwoofers. For such a source with quantity
2 at distance 1 the code computes the point-source base SPL (130 dB), not
the line-array model of the claim (which would give 130 + 10 * log10 2). -/
theorem arrayable_nonLineArray_counterexample :
    subSpk.arrayable = true ∧ dep2.quantity > 1 ∧
    (calculateSPLAtPoint ptZ1 origin subSpk dep2).spl ≠
      calculateCylindricalLoss (distance3D ptZ1 origin)
        (subSpk.specs.maxSPL + 10 * Real.logb 10 (dep2.quantity : ℝ) *
          subSpk.specs.couplingCoefficient)
        ((dep2.quantity : ℝ) * 0.3) subSpk.specs.couplingCoefficient
      + (calculateSPLAtPoint ptZ1 origin subSpk dep2).attenuation := by
  refine ⟨rfl, by norm_num [dep2], ?_⟩
  have hcond : ¬ (subSpk.type = SpeakerType.LineArray ∧ dep2.quantity > 1 ∧
      subSpk.arrayable = true) := by
    intro h
    exact absurd h.1 (by decide)
  rw [spl_eq_base_add_attenuation, if_neg hcond, distance3D_ptZ1_origin]
  have hq : ((dep2.quantity : ℕ) : ℝ) = 2 := by norm_num [dep2]
  have hm : subSpk.specs.maxSPL = 130 := rfl
  have hc : subSpk.specs.couplingCoefficient = 1 := rfl
  rw [hq, hm, hc]
  simp only [calculateInverseSquare, calculateCylindricalLoss]
  rw [if_neg (by norm_num : ¬ ((1 : ℝ) ≤ 0)),
    if_neg (by norm_num : ¬ ((1 : ℝ) ≤ 0)),
    if_neg (by norm_num : ¬ ((2 : ℝ) * 0.3 ≤ 0)),
    if_pos (by norm_num : (1 : ℝ) ≤ (2 * 0.3) * (2 * 0.3) / 0.343),
    Real.logb_one]
  have hpos : 0 < Real.logb 10 2 :=
    Real.logb_pos (by norm_num) (by norm_num)
  intro heq
  have h2 := add_right_cancel heq
  linarith

/-- Claim C6, amended: `calculateSPLAtPoint` uses the line-array model
(array length `quantity * 0.3`, coupling-scaled array gain, cylindrical to
spherical transition of `calculateCylindricalLoss`) exactly when the source
is of line-array type, arrayable, and deployed with more than one element;
every other source (wrong type, non-arrayable, or single element) goes
through the point-source regime `maxSPL - 20 * log10 (distance)` of
`calculateInverseSquare`. -/
theorem base_spl_regime_selection (point speakerPosition : Point3D)
    (speaker : SpeakerModel) (deployment : SpeakerDeployment) :
    (speaker.type = SpeakerType.LineArray ∧ deployment.quantity > 1 ∧
        speaker.arrayable = true →
      (calculateSPLAtPoint point speakerPosition speaker deployment).spl =
        calculateCylindricalLoss (distance3D point speakerPosition)
          (speaker.specs.maxSPL + 10 * Real.logb 10 (deployment.quantity : ℝ) *
            speaker.specs.couplingCoefficient)
          ((deployment.quantity : ℝ) * 0.3) speaker.specs.couplingCoefficient
        + (calculateSPLAtPoint point speakerPosition speaker deployment).attenuation) ∧
    (¬ (speaker.type = SpeakerType.LineArray ∧ deployment.quantity > 1 ∧
        speaker.arrayable = true) →
      (calculateSPLAtPoint point speakerPosition speaker deployment).spl =
        calculateInverseSquare (distance3D point speakerPosition) speaker.specs.maxSPL
        + (calculateSPLAtPoint point speakerPosition speaker deployment).attenuation) := by
  constructor
  · intro h
    rw [spl_eq_base_add_attenuation, if_pos h]
  · intro h
    rw [spl_eq_base_add_attenuation, if_neg h]

/-- Witness for the amended claim C6: the ten-element line-array deployment
goes through the cylindrical model, and the same speaker deployed as a
single element goes through the point-source model. -/
theorem base_spl_regime_selection_witness :
    ((calculateSPLAtPoint ptZ1 origin laSpk dep10).spl =
      calculateCylindricalLoss (distance3D ptZ1 origin)
        (laSpk.specs.maxSPL + 10 * Real.logb 10 (dep10.quantity : ℝ) *
          laSpk.specs.couplingCoefficient)
        ((dep10.quantity : ℝ) * 0.3) laSpk.specs.couplingCoefficient
      + (calculateSPLAtPoint ptZ1 origin laSpk dep10).attenuation) ∧
    ((calculateSPLAtPoint ptZ1 origin laSpk dep1).spl =
      calculateInverseSquare (distance3D ptZ1 origin) laSpk.specs.maxSPL
      + (calculateSPLAtPoint ptZ1 origin laSpk dep1).attenuation) :=
  ⟨(base_spl_regime_selection ptZ1 origin laSpk dep10).1
      ⟨rfl, by norm_num [dep10], rfl⟩,
    (base_spl_regime_selection ptZ1 origin laSpk dep1).2
      (fun h => absurd h.2.1 (by norm_num [dep1]))⟩

/-- Claim C7: the ceiling-reflection flag holds exactly when the top edge
of the vertical coverage cone `tiltAngle - vertDispersion / 2` is negative
(points upward) and the horizontal distance at which that ray reaches the
ceiling lies strictly between 0 and the room depth; in the concrete
scenario (tilt 10 degrees, vertical dispersion 20 degrees, trim 6 m,
ceiling 8 m, depth 20 m) the top edge angle is 0 and the flag is false. -/
theorem ceilingReflection_characterization :
    (∀ speakerHeight tiltAngle vertDispersion ceilingHeight depth : ℝ,
      checkCeilingIntersection speakerHeight tiltAngle vertDispersion
          ceilingHeight depth ↔
        (tiltAngle - vertDispersion / 2 < 0 ∧
          0 < (ceilingHeight - speakerHeight) /
            Real.tan (|tiltAngle - vertDispersion / 2| * Real.pi / 180) ∧
          (ceilingHeight - speakerHeight) /
            Real.tan (|tiltAngle - vertDispersion / 2| * Real.pi / 180) < depth)) ∧
    ¬ hasCeilingReflection 8 20 ceilSpk ceilDep := by
  constructor
  · intro speakerHeight tiltAngle vertDispersion ceilingHeight depth
    simp only [checkCeilingIntersection]
    split_ifs with h
    · exact ⟨fun hx => ⟨h, hx.2, hx.1⟩, fun hx => ⟨hx.2.2, hx.2.1⟩⟩
    · exact ⟨fun hx => hx.elim, fun hx => absurd hx.1 h⟩
  · simp only [hasCeilingReflection, checkCeilingIntersection]
    rw [if_neg (by norm_num [ceilDep, ceilSpk] :
      ¬ (ceilDep.tiltAngle - ceilSpk.specs.vertDispersion / 2 < 0))]
    exact not_false

/-- Claim C8: the multi-source combiner applied to exactly one active
source with zero gain adjustment returns the single-source SPL unchanged:
summing one intensity `10 ^ (spl / 10)` and converting back with
`10 * log10` is the identity. -/
theorem multiSource_single_source_identity (r : SPLResult) :
    calculateMultiSourceSPL [(r, 0)] = r.spl := by
  simp only [calculateMultiSourceSPL, List.map_cons, List.map_nil,
    List.sum_cons, List.sum_nil, add_zero]
  rw [Real.logb_rpow (by norm_num : (0 : ℝ) < 10) (by norm_num : (10 : ℝ) ≠ 1)]
  ring

end SonicDraft
